import Mathlib

/-!
Verification of the rpy2 build script (setup.py).

The script under study detects a local R installation, probes C-compiler
capability against R's headers and libraries, and selects a cffi
generation mode.  Its effectful parts (filesystem, child processes,
environment variables) are embedded shallowly: each external behaviour is
an explicit parameter of the Lean function that models the Python
function, and machine effects (temporary-directory creation and removal)
are explicit state passing.
-/

/-! ## Python string primitives

The script manipulates subprocess output with str.split(os.linesep),
str.startswith and str.rstrip.  These are modelled on the character
lists underlying Lean strings.  os.linesep is modelled as a single
newline character (the POSIX value, which is also what
universal_newlines mode produces).
-/

/-- Model of Python str.startswith: the candidate is a character-list
prefix of the string. -/
def pyStartswith (s pre : String) : Bool :=
  pre.data.isPrefixOf s.data

/-- Model of Python str.rstrip(): drop trailing whitespace characters. -/
def pyRstrip (s : String) : String :=
  ⟨(s.data.reverse.dropWhile Char.isWhitespace).reverse⟩

/-- Split a character list at every occurrence of a separator character,
keeping empty segments, exactly as Python str.split(sep) does for a
one-character separator.  The result is always non-empty. -/
def splitChar (sep : Char) : List Char → List (List Char)
  | [] => [[]]
  | c :: rest =>
    match splitChar sep rest with
    | [] => [[]]
    | l :: ls => if c = sep then [] :: l :: ls else (c :: l) :: ls

/-- Model of Python s.split(os.linesep) on POSIX: split at newline
characters. -/
def pySplitNl (s : String) : List String :=
  (splitChar '\n' s.data).map String.mk

/-! ## cmp_version (setup.py lines 69-77)

Python source:

  def cmp_version(x, y):
      if (x[0] < y[0]):
          return -1
      if (x[0] > y[0]):
          return 1
      if (x[0] == y[0]):
          if len(x) == 1 or len(y) == 1:
              return 0
          return cmp_version(x[1:], y[1:])

Indexing an empty tuple raises IndexError, modelled as none.  For a
non-empty list, x[0] is the head and len(x) == 1 says the tail is empty.
-/

/-- Model of setup.py cmp_version on integer version tuples.  none models
the IndexError raised on an empty argument. -/
def cmp_version : List Int → List Int → Option Int
  | [], _ => none
  | _ :: _, [] => none
  | x :: xs, y :: ys =>
    if x < y then some (-1)
    else if x > y then some 1
    else if xs = [] ∨ ys = [] then some 0
    else cmp_version xs ys

/-! ## Filesystem model for the compiler probe

tempfile.mkdtemp creates a directory guaranteed not to exist yet;
shutil.rmtree removes a directory (with its contents).  Directories are
identified by numbers; the state is the set of existing probe
directories together with a fresh-name counter (mkdtemp's freshness
guarantee corresponds to the counter never naming an existing
directory). -/

/-- Filesystem state seen by the probe: a fresh-name counter and the
list of existing temporary directories. -/
structure FS where
  next : Nat
  dirs : List Nat
deriving DecidableEq, Repr

/-- Model of tempfile.mkdtemp: create a fresh directory and return its
name together with the new state. -/
def mkdtemp (fs : FS) : Nat × FS :=
  (fs.next, ⟨fs.next + 1, fs.next :: fs.dirs⟩)

/-- Model of shutil.rmtree: remove the directory (and implicitly its
contents). -/
def rmtree (d : Nat) (fs : FS) : FS :=
  ⟨fs.next, fs.dirs.erase d⟩

/-! ## The compiler probe (setup.py lines 80-117) -/

/-- Outcome of the compile-and-link step performed by the distutils
compiler object.  Per the distutils API, compile/link either succeed or
raise CCompilerError (CompileError, LinkError, LibError are subclasses),
DistutilsExecError or DistutilsPlatformError. -/
inductive BuildOutcome
  | success
  | ccompilerError
  | distutilsExecError
  | distutilsPlatformError
deriving DecidableEq, Repr

/-- Python exceptions that propagate out of the probe uncaught.  The
source write (open/write) can raise OSError, which no handler in
get_c_extension_status catches. -/
inductive PyExc
  | osError
deriving DecidableEq, Repr

/-- Environment of one probe call: whether writing the probe source file
succeeds, and the toolchain's compile-and-link behaviour as a function
of the source text, the libraries, the include directories and the
library directories. -/
structure ProbeEnv where
  writeOk : Bool
  compileLink : String → List String → Option (List String) → Option (List String) → BuildOutcome

/-- The COMPILATION_STATUS enum from setup.py (lines 80-87). -/
inductive COMPILATION_STATUS
  | COMPILE_ERROR
  | NO_COMPILER
  | PLATFORM_ERROR
  | OK
deriving DecidableEq, Repr

/-- The string value attached to each enum member (None for OK). -/
def COMPILATION_STATUS.value : COMPILATION_STATUS → Option String
  | .COMPILE_ERROR => some ("unable to compile R C extensions - missing headers "
      ++ "or R not compiled as a library ?")
  | .NO_COMPILER => some ("unable to compile sqlite3 C extensions - "
      ++ "no c compiler?")
  | .PLATFORM_ERROR => some "unable to compile R C extensions - platform error"
  | .OK => none

/-- The probe source written by get_c_extension_status (line 91).  Note
that it includes the R header Rinterface.h. -/
def c_code : String :=
  "#include <Rinterface.h>\n\nint main(int argc, char **argv) \x7b return 0; \x7d"

/-- Result of one probe call: the value returned (or the uncaught
exception), the filesystem state after the call, and the name of the
temporary directory the call created. -/
structure ProbeReturn where
  result : Except PyExc COMPILATION_STATUS
  fs : FS
  tmpDir : Nat

/-- Model of get_c_extension_status (setup.py lines 89-117).  Mirrors
the source: mkdtemp, write the probe source, compile and link inside
try/except with three handlers, then rmtree and return.  If the source
write fails, the OSError propagates before the try block and rmtree is
never reached.  The source defaults are libraries=['R'],
include_dirs=None, library_dirs=None. -/
def get_c_extension_status (env : ProbeEnv) (libraries : List String)
    (include_dirs library_dirs : Option (List String)) (fs : FS) : ProbeReturn :=
  let tf := mkdtemp fs
  let tmp_dir := tf.1
  let fs1 := tf.2
  if env.writeOk then
    match env.compileLink c_code libraries include_dirs library_dirs with
    | .ccompilerError =>
      ⟨.ok .COMPILE_ERROR, rmtree tmp_dir fs1, tmp_dir⟩
    | .distutilsExecError =>
      ⟨.ok .NO_COMPILER, rmtree tmp_dir fs1, tmp_dir⟩
    | .distutilsPlatformError =>
      ⟨.ok .PLATFORM_ERROR, rmtree tmp_dir fs1, tmp_dir⟩
    | .success =>
      ⟨.ok .OK, rmtree tmp_dir fs1, tmp_dir⟩
  else
    ⟨.error .osError, fs1, tmp_dir⟩

/-- The status produced for each compile-and-link outcome (the mapping
realised by the try/except chain of lines 101-115). -/
def status_of_outcome : BuildOutcome → COMPILATION_STATUS
  | .success => .OK
  | .ccompilerError => .COMPILE_ERROR
  | .distutilsExecError => .NO_COMPILER
  | .distutilsPlatformError => .PLATFORM_ERROR

/-! ## _get_r_home (setup.py lines 37-66)

The function warns if R_ENVIRON or R_ENVIRON_USER is set, runs the
subprocess 'R RHOME' (sys.exit(1) if that raises), splits the output on
os.linesep, tolerates one leading WARNING line, warns if the optional
file Renviron.site exists under the computed home, and returns the
home path. -/

/-- Warnings emitted by _get_r_home, identified by their trigger. -/
inductive WarnTag
  | environSet
  | rWarning (line : String)
  | renvironSite (path : String)
deriving DecidableEq, Repr

/-- Environment of one _get_r_home call: the two override environment
variables, the output of the 'R RHOME' subprocess (none models
check_output raising), and a filesystem oracle for os.path.exists. -/
structure RHomeEnv where
  r_environ_set : Bool
  r_environ_user_set : Bool
  rhome_output : Option String
  renviron_site_exists : String → Bool

/-- How one _get_r_home call ends: sys.exit(code), an IndexError from
reading a second line that is not there, or a normal return. -/
inductive RHomeOutcome
  | exited (code : Nat)
  | indexError
  | ok (r_home : String)
deriving DecidableEq, Repr

/-- Result of one _get_r_home call: the warnings emitted and the
outcome. -/
structure RHomeRun where
  warnings : List WarnTag
  outcome : RHomeOutcome

/-- Model of _get_r_home (setup.py lines 37-66), with r_bin fixed to its
default 'R' (the parameter only selects which command the environment
answers for). -/
def _get_r_home (env : RHomeEnv) : RHomeRun :=
  let w0 : List WarnTag :=
    if env.r_environ_set || env.r_environ_user_set then [.environSet] else []
  match env.rhome_output with
  | none => ⟨w0, .exited 1⟩
  | some out =>
    match pySplitNl out with
    | [] => ⟨w0, .indexError⟩
    | l0 :: rest =>
      if pyStartswith l0 "WARNING" then
        match rest with
        | [] => ⟨w0 ++ [.rWarning l0], .indexError⟩
        | l1 :: _ =>
          let r_home := pyRstrip l1
          ⟨w0 ++ [.rWarning l0] ++
            (if env.renviron_site_exists (r_home ++ "/Renviron.site")
             then [.renvironSite (r_home ++ "/Renviron.site")] else []),
           .ok r_home⟩
      else
        let r_home := pyRstrip l0
        ⟨w0 ++
          (if env.renviron_site_exists (r_home ++ "/Renviron.site")
           then [.renvironSite (r_home ++ "/Renviron.site")] else []),
         .ok r_home⟩

/-! ## The top-level configuration flow (setup.py lines 120-153)

get_r_c_extension_status queries the R installation through
rpy2.situation (get_r_home, get_r_flags, CExtensionOptions,
get_cffi_mode).  That module is part of the repository but is not among
the given sources, so its behaviour is modelled from the spec: the
process exits non-zero when the R home cannot be determined; the flag
queries yield the include and library directories; get_cffi_mode yields
the selected generation mode.  The model covers the configuration phase
of the script (through the selection of cffi_modules at line 153); the
manifest/metadata part below it is out of scope of the spec. -/

/-- Modelled from the spec: the cffi generation mode returned by
rpy2.situation.get_cffi_mode.  OTHER stands for any value that is none
of ABI, API, BOTH, which the script handles in its default branch. -/
inductive CFFI_MODE
  | ABI
  | API
  | BOTH
  | OTHER
deriving DecidableEq, Repr

/-- Environment of one script run: whether the R home can be determined
(modelled from the spec: if not, the process exits non-zero), the
include and library directories extracted from the R flag queries, the
probe environment, the selected cffi mode, and the starting filesystem
state. -/
structure ScriptEnv where
  rHomeOk : Bool
  cppflags_incdirs : List String
  ldflags_libdirs : List String
  probe : ProbeEnv
  cffi_mode : CFFI_MODE
  fs : FS

/-- How a script run ends: a deliberate sys.exit, an uncaught Python
exception, or normal completion with the selected cffi_modules list. -/
inductive ScriptOutcome
  | exited (code : Nat)
  | uncaught (e : PyExc)
  | completed (cffi_modules : List String)
deriving DecidableEq, Repr

/-- Observable events of a script run, used to state when and how often
the compiler probe runs. -/
inductive Ev
  | probeInvoked
  | modeInspected
deriving DecidableEq, BEq, Repr

def ffibuilder_abi : String := "rpy2/_rinterface_cffi_build.py:ffibuilder_abi"

def ffibuilder_api : String := "rpy2/_rinterface_cffi_build.py:ffibuilder_api"

/-- The probe call made by get_r_c_extension_status (lines 129-131):
libraries=['R'], include_dirs and library_dirs from the R flag
queries. -/
def script_probe (env : ScriptEnv) : ProbeReturn :=
  get_c_extension_status env.probe ["R"]
    (some env.cppflags_incdirs) (some env.ldflags_libdirs) env.fs

/-- Result of one script run: the events in order, and the outcome. -/
structure ScriptRun where
  events : List Ev
  outcome : ScriptOutcome

/-- Model of the configuration phase of the script (lines 135-153):
line 135 invokes get_r_c_extension_status (which resolves the R home,
then runs the compiler probe); line 137 then reads the cffi mode and
selects cffi_modules, exiting with code 1 in API or BOTH mode when the
probe status is not OK. -/
def run_setup_script (env : ScriptEnv) : ScriptRun :=
  if env.rHomeOk then
    match (script_probe env).result with
    | .error e => ⟨[.probeInvoked], .uncaught e⟩
    | .ok status =>
      match env.cffi_mode with
      | .ABI => ⟨[.probeInvoked, .modeInspected], .completed [ffibuilder_abi]⟩
      | .API =>
        if status ≠ COMPILATION_STATUS.OK then
          ⟨[.probeInvoked, .modeInspected], .exited 1⟩
        else
          ⟨[.probeInvoked, .modeInspected], .completed [ffibuilder_api]⟩
      | .BOTH =>
        if status ≠ COMPILATION_STATUS.OK then
          ⟨[.probeInvoked, .modeInspected], .exited 1⟩
        else
          ⟨[.probeInvoked, .modeInspected], .completed [ffibuilder_abi, ffibuilder_api]⟩
      | .OTHER => ⟨[.probeInvoked, .modeInspected], .completed [ffibuilder_abi]⟩
  else
    ⟨[.probeInvoked], .exited 1⟩

/-- Concrete starting filesystem: no probe directories yet. -/
def fs0 : FS := ⟨0, []⟩

/-- A probe environment in which writing the probe source file fails
(for instance the temporary filesystem is full): the OSError is not
caught by get_c_extension_status. -/
def probe_env_write_fails : ProbeEnv :=
  ⟨false, fun _ _ _ _ => .success⟩

/-- A toolchain on a machine without the R development headers: the
probe source (which includes Rinterface.h) fails to compile when no
include directories are supplied, and compiles otherwise. -/
def toolchain_without_r_headers : ProbeEnv :=
  ⟨true, fun src _ incl _ =>
    if src = c_code ∧ incl = none then .ccompilerError else .success⟩

/-! ## Theorems about the compiler probe -/

/-- When the source write succeeds, the probe returns the status that
the try/except chain assigns to the toolchain outcome. -/
theorem probe_result_eq (env : ProbeEnv) (libraries : List String)
    (include_dirs library_dirs : Option (List String)) (fs : FS)
    (hw : env.writeOk = true) :
    (get_c_extension_status env libraries include_dirs library_dirs fs).result =
      Except.ok (status_of_outcome
        (env.compileLink c_code libraries include_dirs library_dirs)) := by
  cases h : env.compileLink c_code libraries include_dirs library_dirs <;>
    simp [get_c_extension_status, hw, h, status_of_outcome]

/-- C1: get_c_extension_status maps a CCompilerError from the
compile-and-link of the probe program to COMPILE_ERROR, a
DistutilsExecError (no compiler executable resolvable) to NO_COMPILER,
a DistutilsPlatformError to PLATFORM_ERROR, and a successful compile
and link to OK. -/
theorem c1_probe_classifies_outcomes (env : ProbeEnv) (libraries : List String)
    (include_dirs library_dirs : Option (List String)) (fs : FS)
    (hw : env.writeOk = true) :
    (env.compileLink c_code libraries include_dirs library_dirs = .ccompilerError →
      (get_c_extension_status env libraries include_dirs library_dirs fs).result =
        Except.ok COMPILATION_STATUS.COMPILE_ERROR) ∧
    (env.compileLink c_code libraries include_dirs library_dirs = .distutilsExecError →
      (get_c_extension_status env libraries include_dirs library_dirs fs).result =
        Except.ok COMPILATION_STATUS.NO_COMPILER) ∧
    (env.compileLink c_code libraries include_dirs library_dirs = .distutilsPlatformError →
      (get_c_extension_status env libraries include_dirs library_dirs fs).result =
        Except.ok COMPILATION_STATUS.PLATFORM_ERROR) ∧
    (env.compileLink c_code libraries include_dirs library_dirs = .success →
      (get_c_extension_status env libraries include_dirs library_dirs fs).result =
        Except.ok COMPILATION_STATUS.OK) := by
  refine ⟨?_, ?_, ?_, ?_⟩ <;> intro h <;> simp [get_c_extension_status, hw, h]

/-- Witness for C1: a toolchain raising CCompilerError yields
COMPILE_ERROR. -/
theorem c1_probe_classifies_outcomes_witness :
    (get_c_extension_status ⟨true, fun _ _ _ _ => .ccompilerError⟩
        ["R"] none none fs0).result = Except.ok COMPILATION_STATUS.COMPILE_ERROR :=
  (c1_probe_classifies_outcomes ⟨true, fun _ _ _ _ => .ccompilerError⟩
    ["R"] none none fs0 rfl).1 rfl

/-- C6: once the compile/link step is reached, every invocation of
get_c_extension_status returns exactly one of the four
COMPILATION_STATUS variants: all toolchain outcomes are one of the
three handled error classes or success. -/
theorem c6_probe_total (env : ProbeEnv) (libraries : List String)
    (include_dirs library_dirs : Option (List String)) (fs : FS)
    (hw : env.writeOk = true) :
    ∃ s : COMPILATION_STATUS,
      (get_c_extension_status env libraries include_dirs library_dirs fs).result =
        Except.ok s ∧
      (s = .OK ∨ s = .COMPILE_ERROR ∨ s = .NO_COMPILER ∨ s = .PLATFORM_ERROR) := by
  refine ⟨status_of_outcome (env.compileLink c_code libraries include_dirs library_dirs),
    probe_result_eq env libraries include_dirs library_dirs fs hw, ?_⟩
  cases env.compileLink c_code libraries include_dirs library_dirs <;>
    simp [status_of_outcome]

/-- Witness for C6 at a concrete succeeding toolchain. -/
theorem c6_probe_total_witness :
    ∃ s : COMPILATION_STATUS,
      (get_c_extension_status ⟨true, fun _ _ _ _ => .success⟩
          ["R"] none none fs0).result = Except.ok s ∧
      (s = .OK ∨ s = .COMPILE_ERROR ∨ s = .NO_COMPILER ∨ s = .PLATFORM_ERROR) :=
  c6_probe_total ⟨true, fun _ _ _ _ => .success⟩ ["R"] none none fs0 rfl

/-- C4: the probe is deterministic and stateless: the returned status
does not depend on the incoming filesystem state, and a second call
with identical arguments, run on the state the first call left behind,
returns the same status. -/
theorem c4_probe_deterministic_stateless (env : ProbeEnv) (libraries : List String)
    (include_dirs library_dirs : Option (List String)) (fs fs' : FS) :
    (get_c_extension_status env libraries include_dirs library_dirs fs).result =
      (get_c_extension_status env libraries include_dirs library_dirs fs').result ∧
    (get_c_extension_status env libraries include_dirs library_dirs
        (get_c_extension_status env libraries include_dirs library_dirs fs).fs).result =
      (get_c_extension_status env libraries include_dirs library_dirs fs).result := by
  have key : ∀ g g' : FS,
      (get_c_extension_status env libraries include_dirs library_dirs g).result =
        (get_c_extension_status env libraries include_dirs library_dirs g').result := by
    intro g g'
    cases hw : env.writeOk
    · simp [get_c_extension_status, hw]
    · cases h : env.compileLink c_code libraries include_dirs library_dirs <;>
        simp [get_c_extension_status, hw, h]
  exact ⟨key fs fs', key _ fs⟩

/-- C2 counterexample: when writing the probe source fails (an OSError
from open/write), the call exits by exception and the temporary
directory still exists afterwards: rmtree is not on that exit path,
contradicting deletion on every exit path regardless of which step
failed. -/
theorem c2_counterexample :
    (get_c_extension_status probe_env_write_fails ["R"] none none fs0).result =
      Except.error PyExc.osError ∧
    (get_c_extension_status probe_env_write_fails ["R"] none none fs0).tmpDir ∈
      (get_c_extension_status probe_env_write_fails ["R"] none none fs0).fs.dirs := by
  exact ⟨rfl, by decide⟩

/-- C2 (amended): on every exit path on which the call returns a status
(success or any of the three handled compile/link error classes) the
temporary directory is deleted before the return; if the source write
fails, the exception propagates and the directory is not deleted. -/
theorem c2_cleanup_when_returning (env : ProbeEnv) (libraries : List String)
    (include_dirs library_dirs : Option (List String)) (fs : FS)
    (hw : env.writeOk = true) (hfresh : fs.next ∉ fs.dirs) :
    (get_c_extension_status env libraries include_dirs library_dirs fs).result =
      Except.ok (status_of_outcome
        (env.compileLink c_code libraries include_dirs library_dirs)) ∧
    (get_c_extension_status env libraries include_dirs library_dirs fs).tmpDir ∉
      (get_c_extension_status env libraries include_dirs library_dirs fs).fs.dirs := by
  refine ⟨probe_result_eq env libraries include_dirs library_dirs fs hw, ?_⟩
  cases h : env.compileLink c_code libraries include_dirs library_dirs <;>
    simp [get_c_extension_status, hw, h, rmtree, mkdtemp, List.erase_cons_head, hfresh]

/-- Witness for the amended C2: a concrete successful probe leaves no
temporary directory behind. -/
theorem c2_cleanup_when_returning_witness :
    (get_c_extension_status ⟨true, fun _ _ _ _ => .success⟩ ["R"] none none fs0).tmpDir ∉
      (get_c_extension_status ⟨true, fun _ _ _ _ => .success⟩ ["R"] none none fs0).fs.dirs :=
  (c2_cleanup_when_returning ⟨true, fun _ _ _ _ => .success⟩ ["R"] none none fs0
    rfl (by decide)).2

/-- C8 counterexample: with libraries=[] and no include or library
directories, on a toolchain without the R development headers the
probe source (which includes Rinterface.h) fails to compile and the
call returns COMPILE_ERROR, not OK: the probe source is not an
always-succeeding trivial program. -/
theorem c8_counterexample :
    (get_c_extension_status toolchain_without_r_headers [] none none fs0).result =
      Except.ok COMPILATION_STATUS.COMPILE_ERROR ∧
    COMPILATION_STATUS.COMPILE_ERROR ≠ COMPILATION_STATUS.OK := by
  constructor
  · simp [get_c_extension_status, toolchain_without_r_headers]
  · decide

/-- C8 (amended): the probe source includes Rinterface.h (it is not an
always-succeeding trivial program), and the call with libraries=[] and
no include or library directories returns OK exactly when the
toolchain's compile-and-link of that source succeeds. -/
theorem c8_ok_iff_toolchain_succeeds (env : ProbeEnv) (fs : FS)
    (hw : env.writeOk = true) :
    pyStartswith c_code "#include <Rinterface.h>" = true ∧
    ((get_c_extension_status env [] none none fs).result =
        Except.ok COMPILATION_STATUS.OK ↔
      env.compileLink c_code [] none none = BuildOutcome.success) := by
  constructor
  · decide
  · rw [probe_result_eq env [] none none fs hw]
    cases h : env.compileLink c_code [] none none <;> simp [status_of_outcome, h]

/-- Witness for the amended C8: a succeeding toolchain yields OK. -/
theorem c8_ok_iff_toolchain_succeeds_witness :
    (get_c_extension_status ⟨true, fun _ _ _ _ => .success⟩ [] none none fs0).result =
      Except.ok COMPILATION_STATUS.OK :=
  ((c8_ok_iff_toolchain_succeeds ⟨true, fun _ _ _ _ => .success⟩ fs0 rfl).2).mpr rfl

/-! ## Theorems about cmp_version -/

/-- cmp_version negates under swapping its arguments (also on the empty
cases, where both directions are none). -/
theorem cmp_version_neg (x y : List Int) :
    cmp_version y x = (cmp_version x y).map (fun n => -n) := by
  induction x generalizing y with
  | nil => cases y <;> simp [cmp_version]
  | cons a xs ih =>
    cases y with
    | nil => simp [cmp_version]
    | cons b ys =>
      rcases lt_trichotomy a b with h | h | h
      · simp [cmp_version, h, not_lt.mpr h.le, h.ne']
      · subst h
        by_cases hxs : xs = [] ∨ ys = []
        · have hys : ys = [] ∨ xs = [] := hxs.symm
          simp [cmp_version, hxs, hys]
        · have hys : ¬(ys = [] ∨ xs = []) := fun h => hxs h.symm
          simp [cmp_version, hxs, hys, ih]
      · simp [cmp_version, h, not_lt.mpr h.le, h.ne']

/-- C9: for non-empty integer version tuples, cmp_version is
antisymmetric (swapping the arguments negates the result, 0 being its
own negation), and when the tuples agree on their common prefix and
either has length 1 it returns 0, so a shorter tuple compares equal to
any longer tuple it is a prefix of, e.g. cmp_version (3,) (3, 3) = 0. -/
theorem c9_cmp_version_antisym_and_shorter (x y : List Int)
    (hx : x ≠ []) (hy : y ≠ []) :
    cmp_version y x = (cmp_version x y).map (fun n => -n) ∧
    (x.head? = y.head? → (x.length = 1 ∨ y.length = 1) → cmp_version x y = some 0) ∧
    cmp_version [(3 : Int)] [3, 3] = some 0 := by
  refine ⟨cmp_version_neg x y, ?_, by decide⟩
  rcases x with _ | ⟨a, xs⟩
  · exact absurd rfl hx
  rcases y with _ | ⟨b, ys⟩
  · exact absurd rfl hy
  intro hhead hlen
  simp only [List.head?_cons, Option.some.injEq] at hhead
  subst hhead
  have hxs : xs = [] ∨ ys = [] := by
    rcases hlen with h | h
    · left
      cases xs with
      | nil => rfl
      | cons c cs => simp at h
    · right
      cases ys with
      | nil => rfl
      | cons c cs => simp at h
  simp [cmp_version, hxs]

/-- Witness for C9 at x = (3,), y = (3, 3). -/
theorem c9_cmp_version_antisym_and_shorter_witness :
    cmp_version [(3 : Int)] [3, 3] = some 0 :=
  (c9_cmp_version_antisym_and_shorter [3] [3, 3] (by decide) (by decide)).2.1
    (by decide) (by decide)

/-! ## Theorems about _get_r_home -/

/-- C5: _get_r_home splits the subprocess output into lines; if the
first line starts with WARNING it emits a warning and returns the
second line with trailing whitespace stripped, otherwise it returns the
first line with trailing whitespace stripped; a second warning line
would be returned as the R home path. -/
theorem c5_rhome_parsing (env : RHomeEnv) (out : String)
    (hout : env.rhome_output = some out) :
    (∀ l0 rest, pySplitNl out = l0 :: rest → pyStartswith l0 "WARNING" = false →
      (_get_r_home env).outcome = RHomeOutcome.ok (pyRstrip l0)) ∧
    (∀ l0 l1 rest, pySplitNl out = l0 :: l1 :: rest →
      pyStartswith l0 "WARNING" = true →
      WarnTag.rWarning l0 ∈ (_get_r_home env).warnings ∧
      (_get_r_home env).outcome = RHomeOutcome.ok (pyRstrip l1)) ∧
    (∀ l0 l1 rest, pySplitNl out = l0 :: l1 :: rest →
      pyStartswith l0 "WARNING" = true → pyStartswith l1 "WARNING" = true →
      (_get_r_home env).outcome = RHomeOutcome.ok (pyRstrip l1)) := by
  refine ⟨?_, ?_, ?_⟩
  · intro l0 rest hsplit hst
    simp [_get_r_home, hout, hsplit, hst]
  · intro l0 l1 rest hsplit hst
    constructor
    · simp [_get_r_home, hout, hsplit, hst]
    · simp [_get_r_home, hout, hsplit, hst]
  · intro l0 l1 rest hsplit hst _
    simp [_get_r_home, hout, hsplit, hst]

/-- Witness for C5: a two-warning output; the second warning line comes
back as the R home path. -/
theorem c5_rhome_parsing_witness :
    (_get_r_home ⟨false, false, some "WARNING: x\nWARNINGy \n", fun _ => false⟩).outcome =
      RHomeOutcome.ok (pyRstrip "WARNINGy ") :=
  (c5_rhome_parsing ⟨false, false, some "WARNING: x\nWARNINGy \n", fun _ => false⟩
    "WARNING: x\nWARNINGy \n" rfl).2.2 "WARNING: x" "WARNINGy " [""]
    (by decide) (by decide) (by decide)

/-- C7: the returned R home does not depend on whether R_ENVIRON or
R_ENVIRON_USER is set: runs identical except for those two variables
produce the same outcome (their presence only adds a non-fatal
warning). -/
theorem c7_renviron_vars_do_not_affect_result (a b a' b' : Bool)
    (rhout : Option String) (site : String → Bool) :
    (_get_r_home ⟨a, b, rhout, site⟩).outcome =
      (_get_r_home ⟨a', b', rhout, site⟩).outcome := by
  cases rhout with
  | none => rfl
  | some out =>
    cases hs : pySplitNl out with
    | nil => simp [_get_r_home, hs]
    | cons l0 rest =>
      cases hw : pyStartswith l0 "WARNING"
      · simp [_get_r_home, hs, hw]
      · cases rest <;> simp [_get_r_home, hs, hw]

/-! ## Theorems about the configuration flow -/

/-- The probe status seen by the script, when the source write
succeeds. -/
theorem script_probe_result_eq (env : ScriptEnv) (hw : env.probe.writeOk = true) :
    (script_probe env).result =
      Except.ok (status_of_outcome (env.probe.compileLink c_code ["R"]
        (some env.cppflags_incdirs) (some env.ldflags_libdirs))) :=
  probe_result_eq env.probe ["R"] (some env.cppflags_incdirs)
    (some env.ldflags_libdirs) env.fs hw

/-- C3: assuming no unhandled exception in the probe (the source write
succeeds), the configuration flow exits with a non-zero code in exactly
two cases: the R home cannot be determined, or the selected cffi mode
is API or BOTH and the probe status is not OK. -/
theorem c3_fatal_exit_iff (env : ScriptEnv) (hw : env.probe.writeOk = true) :
    (∃ c, (run_setup_script env).outcome = ScriptOutcome.exited c ∧ c ≠ 0) ↔
      (env.rHomeOk = false ∨
        ((env.cffi_mode = CFFI_MODE.API ∨ env.cffi_mode = CFFI_MODE.BOTH) ∧
          (script_probe env).result ≠ Except.ok COMPILATION_STATUS.OK)) := by
  have hres := script_probe_result_eq env hw
  cases hrh : env.rHomeOk
  · constructor
    · intro _
      exact Or.inl rfl
    · intro _
      exact ⟨1, by simp [run_setup_script, hrh], one_ne_zero⟩
  · rw [hres]
    cases ho : env.probe.compileLink c_code ["R"]
        (some env.cppflags_incdirs) (some env.ldflags_libdirs) <;>
      rw [ho] at hres <;>
      cases hm : env.cffi_mode <;>
        simp [run_setup_script, hrh, hres, hm, status_of_outcome]

/-- Witness for C3: API mode with a toolchain whose compile fails makes
the script exit non-zero. -/
theorem c3_fatal_exit_iff_witness :
    ∃ c, (run_setup_script ⟨true, [], [], ⟨true, fun _ _ _ _ => .ccompilerError⟩,
        CFFI_MODE.API, fs0⟩).outcome = ScriptOutcome.exited c ∧ c ≠ 0 :=
  (c3_fatal_exit_iff ⟨true, [], [], ⟨true, fun _ _ _ _ => .ccompilerError⟩,
      CFFI_MODE.API, fs0⟩ rfl).mpr
    (Or.inr ⟨Or.inl rfl, by
      rw [script_probe_result_eq ⟨true, [], [], ⟨true, fun _ _ _ _ => .ccompilerError⟩,
        CFFI_MODE.API, fs0⟩ rfl]
      simp [status_of_outcome]⟩)

/-- C10: the probe (get_r_c_extension_status, including the R home
resolution it needs) is invoked exactly once per run, before the cffi
mode is inspected; in ABI or unrecognized/default mode the probe result
is ignored: the run completes with the ABI builder and never exits over
a non-OK probe status. -/
theorem c10_probe_runs_once_and_abi_ignores_status (env : ScriptEnv) :
    ((run_setup_script env).events = [Ev.probeInvoked] ∨
      (run_setup_script env).events = [Ev.probeInvoked, Ev.modeInspected]) ∧
    (run_setup_script env).events.count Ev.probeInvoked = 1 ∧
    (env.rHomeOk = true → env.probe.writeOk = true →
      (env.cffi_mode = CFFI_MODE.ABI ∨ env.cffi_mode = CFFI_MODE.OTHER) →
      (run_setup_script env).outcome = ScriptOutcome.completed [ffibuilder_abi]) := by
  have hev : (run_setup_script env).events = [Ev.probeInvoked] ∨
      (run_setup_script env).events = [Ev.probeInvoked, Ev.modeInspected] := by
    cases hrh : env.rHomeOk
    · simp [run_setup_script, hrh]
    · cases hres : (script_probe env).result
      · simp [run_setup_script, hrh, hres]
      · cases hm : env.cffi_mode <;> simp [run_setup_script, hrh, hres, hm] <;>
          split <;> simp
  refine ⟨hev, ?_, ?_⟩
  · rcases hev with h | h <;> rw [h] <;> decide
  · intro hrh hw hmode
    have hres := script_probe_result_eq env hw
    rcases hmode with hm | hm <;>
      simp [run_setup_script, hrh, hres, hm]

/-- Witness for C10: ABI mode with a failing toolchain still completes
with the ABI builder. -/
theorem c10_probe_runs_once_witness :
    (run_setup_script ⟨true, [], [], ⟨true, fun _ _ _ _ => .ccompilerError⟩,
        CFFI_MODE.ABI, fs0⟩).outcome = ScriptOutcome.completed [ffibuilder_abi] :=
  (c10_probe_runs_once_and_abi_ignores_status ⟨true, [], [],
      ⟨true, fun _ _ _ _ => .ccompilerError⟩, CFFI_MODE.ABI, fs0⟩).2.2
    rfl rfl (Or.inl rfl)

/-- C6 counterexample: an invocation of get_c_extension_status whose
probe-source write fails terminates with an uncaught OSError and
produces none of the four COMPILATION_STATUS variants, so not every
invocation produces a variant. -/
theorem c6_counterexample :
    (get_c_extension_status probe_env_write_fails ["R"] none none ⟨5, []⟩).result =
      Except.error PyExc.osError ∧
    (get_c_extension_status probe_env_write_fails ["R"] none none ⟨5, []⟩).result ≠
      Except.ok COMPILATION_STATUS.OK ∧
    (get_c_extension_status probe_env_write_fails ["R"] none none ⟨5, []⟩).result ≠
      Except.ok COMPILATION_STATUS.COMPILE_ERROR ∧
    (get_c_extension_status probe_env_write_fails ["R"] none none ⟨5, []⟩).result ≠
      Except.ok COMPILATION_STATUS.NO_COMPILER ∧
    (get_c_extension_status probe_env_write_fails ["R"] none none ⟨5, []⟩).result ≠
      Except.ok COMPILATION_STATUS.PLATFORM_ERROR := by
  refine ⟨rfl, ?_, ?_, ?_, ?_⟩ <;> intro h <;>
    simp [get_c_extension_status, probe_env_write_fails] at h
